import Mathlib

/-!
Verification of the dbot model core: shallow embedding of
`brownian_object_motion_model.hpp`, `continuous_occlusion_process_model.hpp`
and `depth_observation_model.hpp`, with theorems settling the spec claims.

Doubles are modelled as real numbers; where NaN matters, a value is an
`Option ℝ` with `none` playing the role of NaN. External collaborators
(the fl stochastic integrator, truncated Gaussian, sigmoid/logit, the
renderer, and the factorized iid aggregation) are not under `src/`; the
definitions for them below are marked `Modelled from the spec:`.
-/

namespace DBot

/-- 3-vectors (Eigen `Matrix<Scalar, 3, 1>`), modelled as triples of reals;
componentwise `+`, `-`, `0` and the scalar action come from the product
instances. -/
abbrev V3 : Type := ℝ × ℝ × ℝ

/-- Cross product of 3-vectors (`Eigen::Vector3d::cross`). -/
def cross (a b : V3) : V3 :=
  (a.2.1 * b.2.2 - a.2.2 * b.2.1,
   a.2.2 * b.1 - a.1 * b.2.2,
   a.1 * b.2.1 - a.2.1 * b.1)

/-- Squared euclidean norm of a 3-vector. -/
def normSq3 (v : V3) : ℝ := v.1 ^ 2 + v.2.1 ^ 2 + v.2.2 ^ 2

/-- Quaternion coefficients, in Eigen `coeffs()` order (x, y, z, w). -/
structure Quat where
  x : ℝ
  y : ℝ
  z : ℝ
  w : ℝ

/-- Coefficient-wise sum of quaternions (`q.coeffs() + ...`). -/
def qAdd (p q : Quat) : Quat := ⟨p.x + q.x, p.y + q.y, p.z + q.z, p.w + q.w⟩

/-- Coefficient-wise scaling of a quaternion. -/
def qSmul (c : ℝ) (q : Quat) : Quat := ⟨c * q.x, c * q.y, c * q.z, c * q.w⟩

/-- Squared norm of the quaternion coefficient vector. -/
def qnormSq (q : Quat) : ℝ := q.x ^ 2 + q.y ^ 2 + q.z ^ 2 + q.w ^ 2

/-- Norm of the quaternion coefficient vector. -/
noncomputable def qnorm (q : Quat) : ℝ := Real.sqrt (qnormSq q)

/-- Eigen `Quaternion::normalized()`: the coefficients divided by the norm. -/
noncomputable def qNormalized (q : Quat) : Quat := qSmul (1 / qnorm q) q

/-- Modelled from the spec: `fl::quaternion_matrix` (fl library, not under
`src/`), the 4x3 linear map taking an angular increment to a quaternion
coefficient increment (first-order tangent-space integration,
`qdot = (1/2) q ⊗ (0, ω)`), applied here directly to a 3-vector. -/
noncomputable def quatMatApply (q : Quat) (v : V3) : Quat :=
  ⟨(q.w * v.1 - q.z * v.2.1 + q.y * v.2.2) / 2,
   (q.z * v.1 + q.w * v.2.1 - q.x * v.2.2) / 2,
   (-q.y * v.1 + q.x * v.2.1 + q.w * v.2.2) / 2,
   (-q.x * v.1 - q.y * v.2.1 - q.z * v.2.2) / 2⟩

/-- Modelled from the spec: the rotation matrix of a quaternion
(`FreeFloatingRigidBodiesState::rotation_matrix`, states header not under
`src/`), applied to a vector; the standard quaternion rotation formula. -/
def quatRotate (q : Quat) (v : V3) : V3 :=
  ((1 - 2 * (q.y ^ 2 + q.z ^ 2)) * v.1 + 2 * (q.x * q.y - q.w * q.z) * v.2.1
     + 2 * (q.x * q.z + q.w * q.y) * v.2.2,
   2 * (q.x * q.y + q.w * q.z) * v.1 + (1 - 2 * (q.x ^ 2 + q.z ^ 2)) * v.2.1
     + 2 * (q.y * q.z - q.w * q.x) * v.2.2,
   2 * (q.x * q.z - q.w * q.y) * v.1 + 2 * (q.y * q.z + q.w * q.x) * v.2.1
     + (1 - 2 * (q.x ^ 2 + q.y ^ 2)) * v.2.2)

/-- Modelled from the spec: one rigid body of a
`FreeFloatingRigidBodiesState` (states header not under `src/`): position,
orientation quaternion, linear and angular velocity. -/
structure RBState where
  pos : V3
  quat : Quat
  linVel : V3
  angVel : V3

/-- The external stochastic-integrator collaborator
(`IntegratedDampedWienerProcessModel`, fl library, not under `src/`),
as one function: `condition` receives `delta_time`, a 6-vector state
(position part, velocity part) and a 3-vector control; `map_standard_normal`
then takes a 3-vector sample to a 6-vector delta (position part, velocity
part). Modelled as an arbitrary function parameter of the motion model. -/
abbrev StochasticIntegrator : Type := ℝ → V3 × V3 → V3 → V3 → V3 × V3

/-- The conditionals stored by `BrownianObjectMotionModel::condition`: the
internally-represented copy of the state (`state_`), the quaternion used
for `quaternion_map_`, and the inputs handed to the two sub-process
`condition` calls. -/
structure BrownianCond where
  dt : ℝ
  posInt : V3
  quat : Quat
  linVelInt : V3
  angVel : V3
  uLin : V3
  uAng : V3

/-- `BrownianObjectMotionModel` for a single rigid body: the parameters
(`rotation_center_`, the two sub-processes) together with the conditionals
written by `condition`. -/
structure BrownianObjectMotionModel where
  rotation_center : V3
  linear_process : StochasticIntegrator
  angular_process : StochasticIntegrator
  cond : BrownianCond

/-- `BrownianObjectMotionModel::condition` (single body): copies the state
into `state_`, recomputes `quaternion_map_` from the current quaternion,
transforms position (`+= rotation_matrix * rotation_center`) and then
linear velocity (`+= angular_velocity.cross(position)`, with the already
shifted position) into the internal representation, and conditions the two
sub-processes on the (zero position part, velocity) slices and the control
slices. -/
def condition (M : BrownianObjectMotionModel) (delta_time : ℝ)
    (state : RBState) (control : V3 × V3) : BrownianObjectMotionModel :=
  let posInt := state.pos + quatRotate state.quat M.rotation_center
  let linVelInt := state.linVel + cross state.angVel posInt
  { M with cond := ⟨delta_time, posInt, state.quat, linVelInt, state.angVel,
                    control.1, control.2⟩ }

/-- `BrownianObjectMotionModel::map_standard_normal` (single body): obtains
the linear and angular 6-vector deltas from the conditioned sub-processes,
assembles the new internal state (position plus delta position part,
first-order quaternion update renormalized, velocities from the delta
velocity parts), and converts back to the external representation
(`linear_velocity -= new_angular_velocity.cross(state_.position)`,
`position -= new_rotation_matrix * rotation_center`). -/
noncomputable def map_standard_normal (M : BrownianObjectMotionModel)
    (sample : V3 × V3) : RBState :=
  let c := M.cond
  let linear_delta := M.linear_process c.dt ((0 : V3), c.linVelInt) c.uLin sample.1
  let angular_delta := M.angular_process c.dt ((0 : V3), c.angVel) c.uAng sample.2
  let quat1 := qNormalized (qAdd c.quat (quatMatApply c.quat angular_delta.1))
  let pos1 := c.posInt + linear_delta.1
  let linVel1 := linear_delta.2 - cross angular_delta.2 c.posInt
  ⟨pos1 - quatRotate quat1 M.rotation_center, quat1, linVel1, angular_delta.2⟩

/-- `BrownianObjectMotionModel::predict_state`: `condition` followed by
`map_standard_normal`. -/
noncomputable def predict_state (M : BrownianObjectMotionModel)
    (delta_time : ℝ) (state : RBState) (noise : V3 × V3)
    (input : V3 × V3) : RBState :=
  map_standard_normal (condition M delta_time state input) noise

/-- `predict_state` as seen by its caller: the state argument is passed by
`const` reference (`condition` copies it into the member `state_`) and the
result is returned by value, so the pair is (the caller's state object
after the call, the returned state). -/
noncomputable def predict_state_caller (M : BrownianObjectMotionModel)
    (delta_time : ℝ) (state : RBState) (noise : V3 × V3)
    (input : V3 × V3) : RBState × RBState :=
  (state, predict_state M delta_time state noise input)

/-- The pivot-free dynamics that claim C2 compares against: the two
sub-processes applied directly to the external velocities, with the
internal-representation transform removed. -/
noncomputable def pivotFreeStep (linP angP : StochasticIntegrator)
    (delta_time : ℝ) (state : RBState) (control : V3 × V3)
    (sample : V3 × V3) : RBState :=
  let linear_delta := linP delta_time ((0 : V3), state.linVel) control.1 sample.1
  let angular_delta := angP delta_time ((0 : V3), state.angVel) control.2 sample.2
  ⟨state.pos + linear_delta.1,
   qNormalized (qAdd state.quat (quatMatApply state.quat angular_delta.1)),
   linear_delta.2, angular_delta.2⟩

/-- Modelled from the spec: an admissible instance of the stochastic
integrator collaborator, with damping coefficient 0 (the spec requires
only damping ≥ 0): Euler integration of the control-plus-noise
acceleration on top of the drift of the initial velocity. -/
noncomputable def specIntegrator : StochasticIntegrator :=
  fun dt st u n =>
    (st.1 + dt • st.2 + ((dt * dt) / 2) • (u + n),
     st.2 + dt • (u + n))

/-- Modelled from the spec: `fl::sigmoid` (fl library, not under `src/`),
the logistic function. -/
noncomputable def sigmoid (x : ℝ) : ℝ := 1 / (1 + Real.exp (-x))

/-- Modelled from the spec: `fl::logit` (fl library, not under `src/`),
`ln(p / (1 - p))` per the spec glossary. -/
noncomputable def logit (p : ℝ) : ℝ := Real.log (p / (1 - p))

/-- Modelled from the spec: the two-state continuous-time mixing model
(`OcclusionProcessModel`, header not under `src/`), parameterized by
p(occluded now | visible one second ago) and p(occluded now | occluded one
second ago). Its `condition`/`sample` pair deterministically returns the
conditioned mean occlusion probability after `delta_time`: the initial
probability pulled toward the chain's stationary point with per-second
decay factor `p_occluded_occluded - p_occluded_visible`. -/
noncomputable def occlusionMixingMean (p_occluded_visible
    p_occluded_occluded delta_time p0 : ℝ) : ℝ :=
  let limit := p_occluded_visible / (1 - p_occluded_occluded + p_occluded_visible)
  let decay := Real.exp (delta_time
                 * Real.log (p_occluded_occluded - p_occluded_visible))
  limit + (p0 - limit) * decay

/-- Modelled from the spec: the standard normal CDF. -/
noncomputable def stdNormalCdf (x : ℝ) : ℝ :=
  ProbabilityTheory.cdf (ProbabilityTheory.gaussianReal 0 1) x

/-- Modelled from the spec: a generalized inverse of the standard normal
CDF. -/
noncomputable def stdNormalInvCdf (p : ℝ) : ℝ :=
  sInf {x : ℝ | p ≤ stdNormalCdf x}

/-- Modelled from the spec: `fl::TruncatedGaussian::map_standard_normal`
(fl library, not under `src/`): the inverse-CDF-based transform of a
standard-normal draw onto the truncation interval `[lo, hi]`. -/
noncomputable def truncatedGaussianMap (mean sigma lo hi sample : ℝ) : ℝ :=
  let a := stdNormalCdf ((lo - mean) / sigma)
  let b := stdNormalCdf ((hi - mean) / sigma)
  mean + sigma * stdNormalInvCdf (a + stdNormalCdf sample * (b - a))

/-- Outcome of an occlusion-model operation: a value, or termination of the
whole process via `exit(code)` (the source calls `exit(-1)` after printing
an error when it meets NaN). -/
inductive StepResult (α : Type) where
  | ok : α → StepResult α
  | processExit : Int → StepResult α

/-- A `double` that is either a finite value or NaN: `none` plays the role
of NaN (`std::isnan`). -/
abbrev DoubleOrNaN : Type := Option ℝ

/-- `ContinuousOcclusionProcessModel`: the constructor parameters (the two
transition probabilities of `mean_`, and `sigma_`), together with the
conditioned parameters of `truncated_gaussian_`. -/
structure ContinuousOcclusionProcessModel where
  p_occluded_visible : ℝ
  p_occluded_occluded : ℝ
  sigma : ℝ
  tgMean : ℝ
  tgSigma : ℝ
  tgLo : ℝ
  tgHi : ℝ

/-- `ContinuousOcclusionProcessModel::condition`: on NaN occlusion input
the source prints an error and calls `exit(-1)`; otherwise it computes the
initial occlusion probability with the sigmoid, obtains the conditioned
mean from the mixing model (`mean_.condition` then `mean_.sample()`), and
stores the truncated-Gaussian parameters
`(mean, sigma_ * sqrt(delta_time), 0, 1)`. The source's second NaN guard
(on the produced mean) cannot fire in the real-number semantics, where no
arithmetic result is NaN. -/
noncomputable def occlusionCondition (m : ContinuousOcclusionProcessModel)
    (delta_time : ℝ) (occlusion : DoubleOrNaN) :
    StepResult ContinuousOcclusionProcessModel :=
  match occlusion with
  | none => StepResult.processExit (-1)
  | some x =>
      let p0 := sigmoid x
      let mean := occlusionMixingMean m.p_occluded_visible
                    m.p_occluded_occluded delta_time p0
      StepResult.ok { m with tgMean := mean,
                             tgSigma := m.sigma * Real.sqrt delta_time,
                             tgLo := 0, tgHi := 1 }

/-- `ContinuousOcclusionProcessModel::map_standard_normal`: maps the
sample through the conditioned truncated Gaussian and returns the logit.
(The source's NaN guard here, which would `exit(-1)`, cannot fire in the
real-number semantics.) -/
noncomputable def occlusionMapStandardNormal
    (m : ContinuousOcclusionProcessModel) (sample : ℝ) : ℝ :=
  logit (truncatedGaussianMap m.tgMean m.tgSigma m.tgLo m.tgHi sample)

/-- `PixelObservationModel`: its Gaussian base over the 1-dimensional noise
has a 1x1 covariance matrix; `covariance` is the scalar `covariance()(0,0)`,
set once by the constructor. -/
structure PixelObservationModel where
  covariance : ℝ

/-- `PixelObservationModel::predict_observation`:
`y(0) = state(0) + exp(state(1)) * covariance()(0,0) * noise(0)` and
`y(1) = y(0) * y(0)`; `delta_time` is ignored. -/
noncomputable def pixel_predict_observation (m : PixelObservationModel)
    (state : ℝ × ℝ) (noise : ℝ) (delta_time : ℝ) : ℝ × ℝ :=
  let y0 := state.1 + Real.exp state.2 * m.covariance * noise
  (y0, y0 * y0)

/-- Key type of `predictions_cache_`: the first six state components
(`state.topRows(6)`). -/
abbrev Pose : Type := Fin 6 → ℝ

/-- The per-pixel internal state (`StateInternal`): for each pixel the pair
(converted depth, occlusion feature), modelling the interleaved
two-entries-per-pixel Eigen vector. -/
abbrev StateInternal : Type := List (ℝ × ℝ)

/-- A rendered depth image: one value per pixel, with `none` modelling an
infinite/invalid depth (`std::isinf(depth[i])`). -/
abbrev DepthImage : Type := List (Option ℝ)

/-- The renderer collaborator at a given moment: it receives the first
`pose_state_dimension_` state components and produces a depth image. A
change of the backing scene between calls is modelled by using a different
function on the later call. -/
abbrev Renderer : Type := (ℕ → ℝ) → DepthImage

/-- The immutable part of `DepthObservationModel`: the pixel-model
covariance scalar fixed at construction, and `pose_state_dimension_`. -/
structure DepthObservationModel where
  pixel_covariance : ℝ
  pose_state_dimension : ℕ

/-- The `DepthObservationModel` constructor: the pixel observation model is
built with covariance
`Identity * ((camera_sigma * camera_sigma) + (model_sigma * model_sigma))`,
and it is never written again afterwards. -/
def mkDepthObservationModel (camera_sigma model_sigma : ℝ)
    (pose_state_dimension : ℕ) : DepthObservationModel :=
  ⟨camera_sigma * camera_sigma + model_sigma * model_sigma,
   pose_state_dimension⟩

/-- First `k` components of a state vector (`state.topRows(k)`). -/
def topRows (k : ℕ) (state : ℕ → ℝ) : ℕ → ℝ :=
  fun i => if i < k then state i else 0

/-- The cache key `state.topRows(6)` of `predict_observation`. -/
def poseKey (state : ℕ → ℝ) : Pose := fun i => state i.val

/-- `DepthObservationModel::convert`: per pixel, the converted depth
(infinite depth replaced by the sentinel 7) paired with the occlusion
feature `state(pose_state_dimension_ + i)`. -/
def convert (m : DepthObservationModel) (depth : DepthImage)
    (state : ℕ → ℝ) : StateInternal :=
  (List.range depth.length).map (fun i =>
    ((depth.getD i none).getD 7, state (m.pose_state_dimension + i)))

/-- `DepthObservationModel::map`: renders the pose slice of the state and
converts the depth image together with the state's occlusion features. -/
def map (m : DepthObservationModel) (renderer : Renderer)
    (state : ℕ → ℝ) : StateInternal :=
  convert m (renderer (topRows m.pose_state_dimension state)) state

/-- Modelled from the spec: `FactorizedIIDObservationModel
::predict_observation` (fl library, not under `src/`): the pixel model
applied independently to every pixel, pixel `i` receiving noise component
`i`. -/
noncomputable def camera_predict_observation (m : DepthObservationModel)
    (state_internal : StateInternal) (noise : ℕ → ℝ) (delta_time : ℝ) :
    List (ℝ × ℝ) :=
  state_internal.mapIdx (fun i s =>
    pixel_predict_observation ⟨m.pixel_covariance⟩ s (noise i) delta_time)

/-- The mutable `predictions_cache_` of `DepthObservationModel`, as an
association list from pose keys to internal states. -/
abbrev PredictionsCache : Type := List (Pose × StateInternal)

/-- Lookup in `predictions_cache_` (`std::unordered_map::find`): a key
matches exactly when all six components are equal. -/
noncomputable def cacheLookup : PredictionsCache → Pose → Option StateInternal
  | [], _ => none
  | e :: rest, key => if e.1 = key then some e.2 else cacheLookup rest key

/-- `DepthObservationModel::clear_cache`: `predictions_cache_.clear()`. -/
def clear_cache (_cache : PredictionsCache) : PredictionsCache := []

/-- `DepthObservationModel::predict_observation`: takes the first six state
components as the cache key; on a miss, `map` renders and converts, and the
result is stored in the cache; the aggregated pixel model is then applied
to the cached internal state. Returns the observation, the cache after the
call, and the number of render calls performed (0 on a hit, 1 on a miss). -/
noncomputable def predict_observation (m : DepthObservationModel)
    (cache : PredictionsCache) (renderer : Renderer) (state : ℕ → ℝ)
    (noise : ℕ → ℝ) (delta_time : ℝ) :
    List (ℝ × ℝ) × PredictionsCache × ℕ :=
  match cacheLookup cache (poseKey state) with
  | some si => (camera_predict_observation m si noise delta_time, cache, 0)
  | none =>
      (camera_predict_observation m (map m renderer state) noise delta_time,
       (poseKey state, map m renderer state) :: cache, 1)

/-! Helper lemmas shared by the claim theorems. -/

/-- The cross product with a zero left factor vanishes. -/
theorem cross_zero_left (b : V3) : cross 0 b = 0 := by
  simp [cross, Prod.ext_iff]

/-- Rotating the zero vector gives the zero vector. -/
theorem quatRotate_zero (q : Quat) : quatRotate q 0 = 0 := by
  simp [quatRotate, Prod.ext_iff]

/-- Squared norms of vectors are nonnegative. -/
theorem normSq3_nonneg (v : V3) : 0 ≤ normSq3 v := by
  unfold normSq3; positivity

/-- Squared quaternion norm of a scaling. -/
theorem qnormSq_qSmul (c : ℝ) (q : Quat) :
    qnormSq (qSmul c q) = c ^ 2 * qnormSq q := by
  simp [qnormSq, qSmul]; ring

/-- The first-order quaternion update: the quaternion-map columns are
orthogonal to the quaternion and mutually orthogonal with squared norm
`qnormSq q / 4`, so the updated coefficient vector has squared norm
`qnormSq q * (1 + normSq3 v / 4)`. -/
theorem qnormSq_add_quatMatApply (q : Quat) (v : V3) :
    qnormSq (qAdd q (quatMatApply q v))
      = qnormSq q * (1 + normSq3 v / 4) := by
  simp only [qnormSq, qAdd, quatMatApply, normSq3]
  ring

/-- Normalizing a quaternion with nonzero squared norm yields norm one. -/
theorem qnorm_qNormalized (u : Quat) (h : 0 < qnormSq u) :
    qnorm (qNormalized u) = 1 := by
  have hs : 0 < Real.sqrt (qnormSq u) := Real.sqrt_pos.mpr h
  have h1 : qnormSq (qNormalized u) = 1 := by
    rw [qNormalized, qnormSq_qSmul, qnorm, div_pow, one_pow,
        Real.sq_sqrt h.le]
    field_simp
  rw [qnorm, h1, Real.sqrt_one]

/-- `predict_observation` on a cache hit: the cached internal state is
used, the cache is unchanged, and the renderer is not invoked. -/
theorem predict_observation_hit (m : DepthObservationModel)
    (cache : PredictionsCache) (renderer : Renderer) (state : ℕ → ℝ)
    (noise : ℕ → ℝ) (delta_time : ℝ) (si : StateInternal)
    (h : cacheLookup cache (poseKey state) = some si) :
    predict_observation m cache renderer state noise delta_time
      = (camera_predict_observation m si noise delta_time, cache, 0) := by
  unfold predict_observation
  rw [h]

/-- `predict_observation` on a cache miss: the renderer is invoked once and
the converted internal state is stored in the cache. -/
theorem predict_observation_miss (m : DepthObservationModel)
    (cache : PredictionsCache) (renderer : Renderer) (state : ℕ → ℝ)
    (noise : ℕ → ℝ) (delta_time : ℝ)
    (h : cacheLookup cache (poseKey state) = none) :
    predict_observation m cache renderer state noise delta_time
      = (camera_predict_observation m (map m renderer state) noise delta_time,
         (poseKey state, map m renderer state) :: cache, 1) := by
  unfold predict_observation
  rw [h]

/-! The claim theorems. -/

/-- C8: for every pixel-model instance, latent state, noise value and time
step, the second component of `PixelObservationModel::predict_observation`
equals exactly the square of the first (`y(1,0) = y(0,0) * y(0,0)`). -/
theorem pixel_second_component_square (m : PixelObservationModel)
    (state : ℝ × ℝ) (noise delta_time : ℝ) :
    (pixel_predict_observation m state noise delta_time).2
      = (pixel_predict_observation m state noise delta_time).1
        * (pixel_predict_observation m state noise delta_time).1 := rfl

/-- C3 counterexample: with `camera_sigma = model_sigma = 1`, depth 0,
occlusion feature 0 and noise 1, the code multiplies the noise by the
stored covariance entry `1^2 + 1^2 = 2` and returns 2, while the claimed
formula with the configured noise standard deviation `sqrt(1^2 + 1^2)`
gives `sqrt 2`. -/
theorem pixel_noise_factor_counterexample :
    (pixel_predict_observation
        ⟨(mkDepthObservationModel 1 1 6).pixel_covariance⟩ (0, 0) 1 0).1
      ≠ 0 + Real.exp 0 * Real.sqrt (1 ^ 2 + 1 ^ 2) * 1 := by
  have hlt : Real.sqrt 2 < 2 := by
    nlinarith [Real.sq_sqrt (show (0 : ℝ) ≤ 2 by norm_num),
               Real.sqrt_nonneg 2]
  simp only [pixel_predict_observation, mkDepthObservationModel,
             Real.exp_zero]
  norm_num
  linarith

/-- C3 amended: the pixel model's first observation component is
`depth + exp(occlusionFeature) * c * noise` where `c` is the covariance
entry stored at construction, namely `camera_sigma^2 + model_sigma^2`
itself (the variance, not its square root); that entry is fixed by the
`DepthObservationModel` constructor. -/
theorem pixel_noise_factor (camera_sigma model_sigma : ℝ)
    (pose_state_dimension : ℕ) (state : ℝ × ℝ) (noise delta_time : ℝ) :
    (mkDepthObservationModel camera_sigma model_sigma
        pose_state_dimension).pixel_covariance
      = camera_sigma ^ 2 + model_sigma ^ 2
    ∧ (pixel_predict_observation
          ⟨(mkDepthObservationModel camera_sigma model_sigma
              pose_state_dimension).pixel_covariance⟩
          state noise delta_time).1
        = state.1 + Real.exp state.2
            * (camera_sigma ^ 2 + model_sigma ^ 2) * noise := by
  constructor
  · simp only [mkDepthObservationModel]; ring
  · simp only [pixel_predict_observation, mkDepthObservationModel]; ring

/-- C4 counterexample: on NaN occlusion input at `delta_time = 1`, the
occlusion model's `condition` terminates the whole process with
`exit(-1)` instead of surfacing a recoverable error result to the
caller. -/
theorem occlusion_nan_exit_counterexample :
    occlusionCondition ⟨0.9, 0.95, 0.1, 0, 0, 0, 1⟩ 1 none
      = StepResult.processExit (-1) := rfl

/-- C4 amended: for every model instance and time step, `condition` on a
NaN occlusion value prints an error and terminates the process with exit
code -1; NaN is fatal by design and is never surfaced as a recoverable
error result (the `map_standard_normal` NaN guard likewise calls
`exit(-1)` in the source). -/
theorem occlusion_nan_exit (m : ContinuousOcclusionProcessModel)
    (delta_time : ℝ) :
    occlusionCondition m delta_time none = StepResult.processExit (-1) := rfl

/-- C1: `condition` is a deterministic pure function of its inputs: two
model instances that agree on their constructor parameters, whatever their
previously conditioned state, are left in identical
conditioned-distribution states by `condition(delta_time, state, control)`
with identical inputs, and a subsequent `map_standard_normal` with the same
sample then returns the same result; no randomness is drawn inside
`condition`. Stated for the Occlusion Evolution Model and for the
Rigid-Body Motion Model. -/
theorem condition_deterministic :
    (∀ (m1 m2 : ContinuousOcclusionProcessModel)
       (delta_time : ℝ) (occlusion : DoubleOrNaN) (sample : ℝ),
        m1.p_occluded_visible = m2.p_occluded_visible →
        m1.p_occluded_occluded = m2.p_occluded_occluded →
        m1.sigma = m2.sigma →
        occlusionCondition m1 delta_time occlusion
          = occlusionCondition m2 delta_time occlusion ∧
        ∀ m1' m2' : ContinuousOcclusionProcessModel,
          occlusionCondition m1 delta_time occlusion = StepResult.ok m1' →
          occlusionCondition m2 delta_time occlusion = StepResult.ok m2' →
          occlusionMapStandardNormal m1' sample
            = occlusionMapStandardNormal m2' sample)
    ∧ (∀ (M1 M2 : BrownianObjectMotionModel) (delta_time : ℝ)
         (state : RBState) (control sample : V3 × V3),
        M1.rotation_center = M2.rotation_center →
        M1.linear_process = M2.linear_process →
        M1.angular_process = M2.angular_process →
        condition M1 delta_time state control
          = condition M2 delta_time state control ∧
        map_standard_normal (condition M1 delta_time state control) sample
          = map_standard_normal
              (condition M2 delta_time state control) sample) := by
  constructor
  · intro m1 m2 delta_time occlusion sample h1 h2 h3
    obtain ⟨pv1, po1, s1, a1, b1, c1, d1⟩ := m1
    obtain ⟨pv2, po2, s2, a2, b2, c2, d2⟩ := m2
    simp only at h1 h2 h3
    subst h1; subst h2; subst h3
    cases occlusion with
    | none => exact ⟨rfl, fun m1' m2' e1 e2 => by cases e1⟩
    | some x =>
        refine ⟨rfl, fun m1' m2' e1 e2 => ?_⟩
        simp only [occlusionCondition, StepResult.ok.injEq] at e1 e2
        rw [← e1, ← e2]
  · intro M1 M2 delta_time state control sample h1 h2 h3
    obtain ⟨rc1, lp1, ap1, c1⟩ := M1
    obtain ⟨rc2, lp2, ap2, c2⟩ := M2
    simp only at h1 h2 h3
    subst h1; subst h2; subst h3
    exact ⟨rfl, rfl⟩

/-- C1 witness: two occlusion-model instances with equal parameters but
different previously conditioned truncated-Gaussian states are conditioned
identically on a concrete input. -/
theorem condition_deterministic_witness :
    occlusionCondition ⟨0.9, 0.95, 0.1, 0, 0, 0, 1⟩ 1 (some 0)
      = occlusionCondition ⟨0.9, 0.95, 0.1, 5, 7, 2, 3⟩ 1 (some 0) :=
  (condition_deterministic.1 ⟨0.9, 0.95, 0.1, 0, 0, 0, 1⟩
    ⟨0.9, 0.95, 0.1, 5, 7, 2, 3⟩ 1 (some 0) 0 rfl rfl rfl).1

/-- C6: for every model instance (any pivot, any sub-processes), every
input state whose orientation quaternion is unit-norm (the `RigidBodyState`
invariant), every noise sample, every control input and every time step
≥ 0, the orientation quaternion of the state returned by
`map_standard_normal` (after `condition`) has norm exactly 1: the update is
renormalized after every mutation. -/
theorem quaternion_unit_norm (M : BrownianObjectMotionModel)
    (delta_time : ℝ) (state : RBState) (noise input : V3 × V3)
    (hq : qnormSq state.quat = 1) (hdt : 0 ≤ delta_time) :
    qnorm (predict_state M delta_time state noise input).quat = 1 := by
  have key : (predict_state M delta_time state noise input).quat
      = qNormalized (qAdd state.quat (quatMatApply state.quat
          ((M.angular_process delta_time ((0 : V3), state.angVel) input.2
              noise.2).1))) := rfl
  rw [key]
  apply qnorm_qNormalized
  rw [qnormSq_add_quatMatApply, hq]
  nlinarith [normSq3_nonneg ((M.angular_process delta_time
    ((0 : V3), state.angVel) input.2 noise.2).1)]

/-- The identity quaternion. -/
def qId : Quat := ⟨0, 0, 0, 1⟩

/-- A concrete motion-model instance used by the witnesses: zero pivot,
the admissible zero-damping integrator for both sub-processes, and an
arbitrary previously conditioned state. -/
noncomputable def wMotionModel : BrownianObjectMotionModel :=
  ⟨0, specIntegrator, specIntegrator, ⟨0, 0, qId, 0, 0, 0, 0⟩⟩

/-- C6 witness: at a concrete state with the identity quaternion, zero
noise and zero control, the predicted quaternion has norm 1. -/
theorem quaternion_unit_norm_witness :
    qnormSq (RBState.mk (1, 0, 0) qId 0 ((0 : ℝ), (0 : ℝ), (1 : ℝ))).quat = 1
    ∧ (0 : ℝ) ≤ 1
    ∧ qnorm (predict_state wMotionModel 1
        (RBState.mk (1, 0, 0) qId 0 ((0 : ℝ), (0 : ℝ), (1 : ℝ)))
        (0, 0) (0, 0)).quat = 1 := by
  have hq : qnormSq (RBState.mk (1, 0, 0) qId 0
      ((0 : ℝ), (0 : ℝ), (1 : ℝ))).quat = 1 := by
    simp [qnormSq, qId]
  exact ⟨hq, by norm_num,
    quaternion_unit_norm wMotionModel 1 _ (0, 0) (0, 0) hq (by norm_num)⟩

/-- Evaluation of the motion step at the concrete C2/C9 input: zero pivot,
zero noise, zero control, position (1,0,0), identity quaternion, zero
linear velocity, angular velocity (0,0,1). `condition` still adds
`angular_velocity × position` to the linear velocity, so the integrated
position becomes (1,1,0). -/
theorem counterexample_pos_eval :
    (predict_state wMotionModel 1
        (RBState.mk (1, 0, 0) qId 0 ((0 : ℝ), (0 : ℝ), (1 : ℝ)))
        (0, 0) (0, 0)).pos
      = ((1 : ℝ), (1 : ℝ), (0 : ℝ)) := by
  simp [predict_state, condition, map_standard_normal, wMotionModel,
        specIntegrator, cross, qId, quatRotate_zero, Prod.ext_iff,
        Prod.mk_add_mk, Prod.smul_mk, smul_eq_mul]

/-- Evaluation of the pivot-free dynamics at the same concrete input: with
zero linear velocity the position stays (1,0,0). -/
theorem pivotFree_pos_eval :
    (pivotFreeStep specIntegrator specIntegrator 1
        (RBState.mk (1, 0, 0) qId 0 ((0 : ℝ), (0 : ℝ), (1 : ℝ)))
        (0, 0) (0, 0)).pos
      = ((1 : ℝ), (0 : ℝ), (0 : ℝ)) := by
  simp [pivotFreeStep, specIntegrator, Prod.ext_iff, Prod.mk_add_mk,
        Prod.smul_mk, smul_eq_mul]

/-- C2 counterexample: with pivot offset zero, zero noise and zero control
but nonzero angular velocity, the position returned by the code differs
from what the pivot-free dynamics produce: the velocity adjustment
`+= angular_velocity.cross(position)` in `condition` is applied even with
a zero pivot, leaving a residual drift. -/
theorem pivot_round_trip_counterexample :
    (predict_state wMotionModel 1
        (RBState.mk (1, 0, 0) qId 0 ((0 : ℝ), (0 : ℝ), (1 : ℝ)))
        (0, 0) (0, 0)).pos
      ≠ (pivotFreeStep specIntegrator specIntegrator 1
          (RBState.mk (1, 0, 0) qId 0 ((0 : ℝ), (0 : ℝ), (1 : ℝ)))
          (0, 0) (0, 0)).pos := by
  rw [counterexample_pos_eval, pivotFree_pos_eval]
  norm_num [Prod.ext_iff]

/-- C2 amended: with pivot offset zero, zero noise, zero control and
additionally zero angular velocity (and an angular sub-process that, like
the damped Wiener process, maps an all-zero conditioning with zero sample
to a zero delta), the transform applied in `condition` and the inverse
applied in `map_standard_normal` compose to the identity: the external
position, linear velocity and angular velocity equal what the pivot-free
dynamics produce. For nonzero angular velocity the composition is not the
identity (see the counterexample). -/
theorem pivot_round_trip (linP angP : StochasticIntegrator)
    (c0 : BrownianCond) (state : RBState) (delta_time : ℝ)
    (hav : state.angVel = 0)
    (hang : angP delta_time ((0 : V3), (0 : V3)) 0 0 = ((0 : V3), (0 : V3))) :
    (predict_state ⟨0, linP, angP, c0⟩ delta_time state (0, 0) (0, 0)).pos
        = (pivotFreeStep linP angP delta_time state (0, 0) (0, 0)).pos
    ∧ (predict_state ⟨0, linP, angP, c0⟩ delta_time state (0, 0) (0, 0)).linVel
        = (pivotFreeStep linP angP delta_time state (0, 0) (0, 0)).linVel
    ∧ (predict_state ⟨0, linP, angP, c0⟩ delta_time state (0, 0) (0, 0)).angVel
        = (pivotFreeStep linP angP delta_time state (0, 0) (0, 0)).angVel := by
  simp only [predict_state, condition, map_standard_normal, pivotFreeStep,
    hav, quatRotate_zero, cross_zero_left, add_zero, hang, sub_zero]
  exact ⟨trivial, trivial, trivial⟩

/-- C2 witness: the round-trip identity at a concrete state with zero
angular velocity, using the admissible zero-damping integrator. -/
theorem pivot_round_trip_witness :
    specIntegrator 1 ((0 : V3), (0 : V3)) 0 0 = ((0 : V3), (0 : V3))
    ∧ ((predict_state ⟨0, specIntegrator, specIntegrator,
          ⟨0, 0, qId, 0, 0, 0, 0⟩⟩ 1
          (RBState.mk (2, 0, 0) qId (0, 3, 0) 0) (0, 0) (0, 0)).pos
        = (pivotFreeStep specIntegrator specIntegrator 1
            (RBState.mk (2, 0, 0) qId (0, 3, 0) 0) (0, 0) (0, 0)).pos
      ∧ (predict_state ⟨0, specIntegrator, specIntegrator,
            ⟨0, 0, qId, 0, 0, 0, 0⟩⟩ 1
            (RBState.mk (2, 0, 0) qId (0, 3, 0) 0) (0, 0) (0, 0)).linVel
          = (pivotFreeStep specIntegrator specIntegrator 1
              (RBState.mk (2, 0, 0) qId (0, 3, 0) 0) (0, 0) (0, 0)).linVel
      ∧ (predict_state ⟨0, specIntegrator, specIntegrator,
            ⟨0, 0, qId, 0, 0, 0, 0⟩⟩ 1
            (RBState.mk (2, 0, 0) qId (0, 3, 0) 0) (0, 0) (0, 0)).angVel
          = (pivotFreeStep specIntegrator specIntegrator 1
              (RBState.mk (2, 0, 0) qId (0, 3, 0) 0) (0, 0) (0, 0)).angVel) := by
  have hang : specIntegrator 1 ((0 : V3), (0 : V3)) 0 0
      = ((0 : V3), (0 : V3)) := by
    simp [specIntegrator]
  exact ⟨hang, pivot_round_trip specIntegrator specIntegrator
    ⟨0, 0, qId, 0, 0, 0, 0⟩ (RBState.mk (2, 0, 0) qId (0, 3, 0) 0) 1
    rfl hang⟩

/-- C9 counterexample: at a concrete input the caller's state object after
`predict_state` (unchanged: the argument is passed by `const` reference)
differs from the returned state, so the prediction call does not leave the
new pose in the caller's object. -/
theorem predict_state_in_place_counterexample :
    (predict_state_caller wMotionModel 1
        (RBState.mk (1, 0, 0) qId 0 ((0 : ℝ), (0 : ℝ), (1 : ℝ)))
        (0, 0) (0, 0)).1
      ≠ (predict_state_caller wMotionModel 1
          (RBState.mk (1, 0, 0) qId 0 ((0 : ℝ), (0 : ℝ), (1 : ℝ)))
          (0, 0) (0, 0)).2 := by
  intro h
  have hp := congrArg RBState.pos h
  simp only [predict_state_caller] at hp
  rw [counterexample_pos_eval] at hp
  norm_num [Prod.ext_iff] at hp

/-- C9 amended: `predict_state` never mutates the caller's state argument
(it is passed by `const` reference and copied into the member `state_`);
the new pose and velocities are produced in a fresh state returned by
value, the result of `condition` followed by `map_standard_normal`. -/
theorem predict_state_const_argument (M : BrownianObjectMotionModel)
    (delta_time : ℝ) (state : RBState) (noise input : V3 × V3) :
    (predict_state_caller M delta_time state noise input).1 = state
    ∧ (predict_state_caller M delta_time state noise input).2
        = map_standard_normal (condition M delta_time state input) noise :=
  ⟨rfl, rfl⟩

/-- C5: calling `predict_observation` twice with states whose first six
components are equal, with the same noise and `delta_time`, returns the
same observation on the second call without invoking the renderer, even if
the renderer's backing scene changed between the calls; after
`clear_cache()`, the next call with that pose invokes the renderer
again. -/
theorem cache_hit_no_rerender (m : DepthObservationModel)
    (cache : PredictionsCache) (renderer1 renderer2 : Renderer)
    (s1 s2 : ℕ → ℝ) (noise : ℕ → ℝ) (delta_time : ℝ)
    (hpose : poseKey s1 = poseKey s2) :
    ((predict_observation m
        (predict_observation m cache renderer1 s1 noise delta_time).2.1
        renderer2 s2 noise delta_time).1
      = (predict_observation m cache renderer1 s1 noise delta_time).1
    ∧ (predict_observation m
        (predict_observation m cache renderer1 s1 noise delta_time).2.1
        renderer2 s2 noise delta_time).2.2 = 0)
    ∧ (predict_observation m
        (clear_cache (predict_observation m cache renderer1 s1 noise
            delta_time).2.1)
        renderer2 s2 noise delta_time).2.2 = 1 := by
  constructor
  · cases h1 : cacheLookup cache (poseKey s1) with
    | some si =>
        have h2 : cacheLookup cache (poseKey s2) = some si := by
          rw [← hpose]; exact h1
        rw [predict_observation_hit m cache renderer1 s1 noise delta_time
              si h1]
        dsimp only
        rw [predict_observation_hit m cache renderer2 s2 noise delta_time
              si h2]
        exact ⟨rfl, rfl⟩
    | none =>
        rw [predict_observation_miss m cache renderer1 s1 noise delta_time h1]
        dsimp only
        have h2 : cacheLookup ((poseKey s1, map m renderer1 s1) :: cache)
            (poseKey s2) = some (map m renderer1 s1) := by
          simp [cacheLookup, hpose]
        rw [predict_observation_hit m
              ((poseKey s1, map m renderer1 s1) :: cache) renderer2 s2 noise
              delta_time (map m renderer1 s1) h2]
        exact ⟨rfl, rfl⟩
  · rw [predict_observation_miss m
          (clear_cache (predict_observation m cache renderer1 s1 noise
              delta_time).2.1) renderer2 s2 noise delta_time rfl]

/-- C7: the prediction-cache key comparison is exact equality on the
6-dimensional pose: for any two states whose first six components differ
(by any nonzero amount), two `predict_observation` calls from an empty
cache each perform a full render and leave two distinct cache entries. -/
theorem exact_cache_key_two_renders (m : DepthObservationModel)
    (renderer : Renderer) (s1 s2 : ℕ → ℝ) (noise : ℕ → ℝ)
    (delta_time : ℝ) (hne : poseKey s1 ≠ poseKey s2) :
    (predict_observation m [] renderer s1 noise delta_time).2.2 = 1
    ∧ (predict_observation m
        (predict_observation m [] renderer s1 noise delta_time).2.1
        renderer s2 noise delta_time).2.2 = 1
    ∧ (predict_observation m
        (predict_observation m [] renderer s1 noise delta_time).2.1
        renderer s2 noise delta_time).2.1.length = 2 := by
  rw [predict_observation_miss m [] renderer s1 noise delta_time rfl]
  dsimp only
  have h2 : cacheLookup ((poseKey s1, map m renderer s1) :: [])
      (poseKey s2) = none := by
    simp [cacheLookup, hne]
  rw [predict_observation_miss m ((poseKey s1, map m renderer s1) :: [])
        renderer s2 noise delta_time h2]
  exact ⟨rfl, rfl, rfl⟩

/-- C10: on a cache hit, `predict_observation` computes the observation
from the internal state stored when the entry was created — the render of
the first state's pose interleaved with the FIRST state's occlusion
features — ignoring the occlusion-feature components (and the renderer) of
the current call. -/
theorem cache_hit_uses_stored_features (m : DepthObservationModel)
    (renderer1 renderer2 : Renderer) (s1 s2 : ℕ → ℝ)
    (noise1 noise2 : ℕ → ℝ) (dt1 dt2 : ℝ)
    (hpose : poseKey s1 = poseKey s2) :
    (predict_observation m
        (predict_observation m [] renderer1 s1 noise1 dt1).2.1
        renderer2 s2 noise2 dt2).1
      = camera_predict_observation m (map m renderer1 s1) noise2 dt2 := by
  rw [predict_observation_miss m [] renderer1 s1 noise1 dt1 rfl]
  dsimp only
  have h2 : cacheLookup ((poseKey s1, map m renderer1 s1) :: [])
      (poseKey s2) = some (map m renderer1 s1) := by
    simp [cacheLookup, hpose]
  rw [predict_observation_hit m ((poseKey s1, map m renderer1 s1) :: [])
        renderer2 s2 noise2 dt2 (map m renderer1 s1) h2]

/-- A concrete state whose components are all zero. -/
def wState0 : ℕ → ℝ := fun _ => 0

/-- A concrete state whose components are all one. -/
def wState1 : ℕ → ℝ := fun _ => 1

/-- A concrete state with the same pose as `wState0` but different
occlusion-feature components. -/
noncomputable def wStateOcc : ℕ → ℝ := fun i => if i < 6 then 0 else 1

/-- A concrete renderer used by the witnesses. -/
def wRenderer1 : Renderer := fun _ => [some 1]

/-- A second concrete renderer, modelling a changed backing scene (and an
invalid first pixel). -/
def wRenderer2 : Renderer := fun _ => [none, some 3]

/-- A concrete zero noise vector. -/
def wNoise : ℕ → ℝ := fun _ => 0

/-- C5 witness: the cache behaviour at a concrete model, pose, noise and
pair of renderers. -/
theorem cache_hit_no_rerender_witness :
    poseKey wState0 = poseKey wState0
    ∧ (((predict_observation (mkDepthObservationModel 1 1 6)
          (predict_observation (mkDepthObservationModel 1 1 6) [] wRenderer1
              wState0 wNoise 1).2.1
          wRenderer2 wState0 wNoise 1).1
        = (predict_observation (mkDepthObservationModel 1 1 6) [] wRenderer1
            wState0 wNoise 1).1
      ∧ (predict_observation (mkDepthObservationModel 1 1 6)
          (predict_observation (mkDepthObservationModel 1 1 6) [] wRenderer1
              wState0 wNoise 1).2.1
          wRenderer2 wState0 wNoise 1).2.2 = 0)
      ∧ (predict_observation (mkDepthObservationModel 1 1 6)
          (clear_cache (predict_observation (mkDepthObservationModel 1 1 6)
              [] wRenderer1 wState0 wNoise 1).2.1)
          wRenderer2 wState0 wNoise 1).2.2 = 1) :=
  ⟨rfl, cache_hit_no_rerender (mkDepthObservationModel 1 1 6) [] wRenderer1
    wRenderer2 wState0 wState0 wNoise 1 rfl⟩

/-- C7 witness: two concrete states differing in the first pose component
produce two renders and two cache entries. -/
theorem exact_cache_key_two_renders_witness :
    poseKey wState0 ≠ poseKey wState1
    ∧ ((predict_observation (mkDepthObservationModel 1 1 6) [] wRenderer1
          wState0 wNoise 1).2.2 = 1
      ∧ (predict_observation (mkDepthObservationModel 1 1 6)
          (predict_observation (mkDepthObservationModel 1 1 6) [] wRenderer1
              wState0 wNoise 1).2.1
          wRenderer1 wState1 wNoise 1).2.2 = 1
      ∧ (predict_observation (mkDepthObservationModel 1 1 6)
          (predict_observation (mkDepthObservationModel 1 1 6) [] wRenderer1
              wState0 wNoise 1).2.1
          wRenderer1 wState1 wNoise 1).2.1.length = 2) := by
  have hne : poseKey wState0 ≠ poseKey wState1 := by
    intro h
    have h0 := congrFun h 0
    norm_num [poseKey, wState0, wState1] at h0
  exact ⟨hne, exact_cache_key_two_renders (mkDepthObservationModel 1 1 6)
    wRenderer1 wState0 wState1 wNoise 1 hne⟩

/-- C10 witness: a second call with equal pose but different
occlusion-feature components yields the observation computed from the
first call's stored internal state. -/
theorem cache_hit_uses_stored_features_witness :
    poseKey wState0 = poseKey wStateOcc
    ∧ (predict_observation (mkDepthObservationModel 1 1 6)
        (predict_observation (mkDepthObservationModel 1 1 6) [] wRenderer1
            wState0 wNoise 1).2.1
        wRenderer2 wStateOcc wNoise 2).1
      = camera_predict_observation (mkDepthObservationModel 1 1 6)
          (map (mkDepthObservationModel 1 1 6) wRenderer1 wState0)
          wNoise 2 := by
  have hpose : poseKey wState0 = poseKey wStateOcc := by
    funext i
    simp only [poseKey, wState0, wStateOcc]
    rw [if_pos i.isLt]
  exact ⟨hpose, cache_hit_uses_stored_features (mkDepthObservationModel 1 1 6)
    wRenderer1 wRenderer2 wState0 wStateOcc wNoise wNoise 1 2 hpose⟩

end DBot
